import Mathlib

/-!
Verification of the HeartMuLa asynchronous job lifecycle manager
(backend gateway in `backend/server.js`, frontend poller / result
materializer in the React client, local stack orchestration script).

The definitions below are a shallow embedding of the JavaScript source:
JS values that the code inspects are modelled explicitly (missing fields
as `Option`, numeric fields with a NaN case, JS truthiness spelled out),
handlers become pure functions from the request/upstream outcome to the
produced response, and the frontend poller becomes a step function on an
application-state record driven by a list of provider responses.
-/

namespace ZenGo

/-! ## JS value primitives -/

/-- A numeric request field as it reaches `parseInt` / `parseFloat`:
absent (`undefined`), present but not parseable (NaN), or a numeric
value (integer case and general rational case kept separate, matching
how the JS number is consumed). -/
inductive NumField where
  | missing
  | nonNumeric
  | int (n : Int)
  | rat (q : ℚ)
deriving DecidableEq, Repr

/-- JS `parseInt` truncates toward zero. -/
def truncToward0 (q : ℚ) : Int :=
  if q < 0 then ⌈q⌉ else ⌊q⌋

/-- `parseInt(field)`: `none` models NaN. -/
def NumField.parseIntJs : NumField → Option Int
  | .missing => none
  | .nonNumeric => none
  | .int n => some n
  | .rat q => some (truncToward0 q)

/-- `parseFloat(field)`: `none` models NaN. -/
def NumField.parseFloatJs : NumField → Option ℚ
  | .missing => none
  | .nonNumeric => none
  | .int n => some (n : ℚ)
  | .rat q => some q

/-- JS `x || d` for an integer `x` that may be NaN: NaN and `0` are
falsy and give the default. -/
def jsOrInt (v : Option Int) (d : Int) : Int :=
  match v with
  | none => d
  | some n => if n = 0 then d else n

/-- JS `x || d` for a float that may be NaN: NaN and `0` are falsy. -/
def jsOrRat (v : Option ℚ) (d : ℚ) : ℚ :=
  match v with
  | none => d
  | some q => if q = 0 then d else q

/-- JS `s || d` for a possibly-absent string: `undefined`, `null` and
`""` are falsy. -/
def jsOrStr (v : Option String) (d : String) : String :=
  match v with
  | none => d
  | some s => if s = "" then d else s

/-- JS truthiness of a possibly-absent string (`undefined`/`""` falsy). -/
def jsTruthyStr (v : Option String) : Bool :=
  match v with
  | none => false
  | some s => s ≠ ""

/-- Whitespace removed by `String.prototype.trim`. -/
def isJsWs (c : Char) : Bool :=
  c = ' ' || c = '\t' || c = '\n' || c = '\r' || c = '\x0b' || c = '\x0c'

/-- JS `s.trim()`: strip whitespace from both ends. -/
def trimJs (s : String) : String :=
  ⟨((s.data.dropWhile isJsWs).reverse.dropWhile isJsWs).reverse⟩

/-- The gateway's blank test `!field || !field.trim()` on a string field
that may be absent. -/
def isBlank (v : Option String) : Bool :=
  match v with
  | none => true
  | some s => s = "" || trimJs s = ""

/-! ## Result materializer: `atob` and `base64ToBlob`

`base64ToBlob` (frontend) runs `atob` on the payload, copies the byte
string into a `Uint8Array`, and wraps it in a `Blob` tagged with the
declared media type.  `atob` implements forgiving-base64: strip ASCII
whitespace, strip `=` padding when the length is a multiple of 4, fail
when the remaining length is ≡ 1 (mod 4) or any character is outside
the base64 alphabet. -/

/-- Value of one base64 alphabet character; `none` for an illegal one. -/
def b64Val (c : Char) : Option Nat :=
  if 'A' ≤ c ∧ c ≤ 'Z' then some (c.toNat - 'A'.toNat)
  else if 'a' ≤ c ∧ c ≤ 'z' then some (c.toNat - 'a'.toNat + 26)
  else if '0' ≤ c ∧ c ≤ '9' then some (c.toNat - '0'.toNat + 52)
  else if c = '+' then some 62
  else if c = '/' then some 63
  else none

/-- ASCII whitespace stripped by forgiving-base64. -/
def isB64Ws (c : Char) : Bool :=
  c = ' ' || c = '\t' || c = '\n' || c = '\r' || c = '\x0c'

/-- Map every character through the alphabet, failing on an illegal one. -/
def b64Vals : List Char → Option (List Nat)
  | [] => some []
  | c :: cs =>
    match b64Val c, b64Vals cs with
    | some v, some vs => some (v :: vs)
    | _, _ => none

/-- Turn a list of 6-bit values into bytes: each full group of four
yields three bytes, a trailing pair one byte, a trailing triple two. -/
def b64Bytes : List Nat → List Nat
  | a :: b :: c :: d :: rest =>
    (a * 4 + b / 16) :: (b % 16 * 16 + c / 4) :: (c % 4 * 64 + d) :: b64Bytes rest
  | [a, b] => [a * 4 + b / 16]
  | [a, b, c] => [a * 4 + b / 16, b % 16 * 16 + c / 4]
  | _ => []

/-- Drop one trailing `=` when present (padding removal step). -/
def stripPadOnce (cs : List Char) : List Char :=
  match cs.getLast? with
  | some '=' => cs.dropLast
  | _ => cs

/-- `atob`: forgiving-base64 decode to a byte list, `none` models the
`InvalidCharacterError` the JS function throws. -/
def atobJs (s : String) : Option (List Nat) :=
  let cs := s.data.filter (fun c => !isB64Ws c)
  let cs := if cs.length % 4 = 0 then stripPadOnce (stripPadOnce cs) else cs
  if cs.length % 4 = 1 then none
  else (b64Vals cs).map b64Bytes

/-- A materialized binary artifact: decoded bytes plus media type. -/
structure Blob where
  bytes : List Nat
  type : String
deriving DecidableEq, Repr

/-- `base64ToBlob(base64, mimeType)`; `none` when `atob` throws, in
which case no blob (and no object URL) is ever produced. -/
def base64ToBlob (base64 : String) (mimeType : String) : Option Blob :=
  (atobJs base64).map (fun bs => ⟨bs, mimeType⟩)

/-! ## Backend: `POST /api/generate` (Job Submission Gateway)

`server.js` destructures the body, rejects blank `lyrics`/`tags` with a
400 before any outbound call, and otherwise builds the provider payload
with `Math.min(parseInt(duration_ms) || 120000, 240000)`,
`parseFloat(temperature) || 1.0`, `parseInt(topk) || 50`,
`parseFloat(cfg_scale) || 1.5`. -/

/-- The request body as the handler destructures it. -/
structure GenBody where
  lyrics : Option String
  tags : Option String
  duration_ms : NumField
  temperature : NumField
  topk : NumField
  cfg_scale : NumField
deriving DecidableEq, Repr

/-- The normalized `input` envelope forwarded to the provider. -/
structure GenPayload where
  lyrics : String
  tags : String
  duration_ms : Int
  temperature : ℚ
  topk : Int
  cfg_scale : ℚ
deriving DecidableEq, Repr

/-- Outcome of the generate handler up to the outbound call: either an
immediate 400 (no provider contact) or the forwarded payload (exactly
one outbound call). -/
inductive GenResp where
  | clientError (code : Nat) (msg : String)
  | forwarded (payload : GenPayload)
deriving DecidableEq, Repr

/-- The validation-and-normalization phase of the `/api/generate`
handler: `server.js:56-74`. -/
def generateHandler (b : GenBody) : GenResp :=
  if isBlank b.lyrics then .clientError 400 "lyrics is required"
  else if isBlank b.tags then .clientError 400 "tags is required"
  else
    .forwarded
      { lyrics := trimJs (b.lyrics.getD "")
        tags := trimJs (b.tags.getD "")
        duration_ms := min (jsOrInt b.duration_ms.parseIntJs 120000) 240000
        temperature := jsOrRat b.temperature.parseFloatJs 1
        topk := jsOrInt b.topk.parseIntJs 50
        cfg_scale := jsOrRat b.cfg_scale.parseFloatJs (mkRat 3 2) }

/-- Number of outbound provider calls the generate handler issues. -/
def GenResp.outboundCalls : GenResp → Nat
  | .clientError _ _ => 0
  | .forwarded _ => 1

/-! ## Backend: `GET /api/status/:jobId` (Job Status Resolver)

The handler fetches the provider's status; a thrown fetch gives a 500,
a non-ok response a 502, and on success it copies `id` and `status`,
attaches `output` only when `status === "COMPLETED" && data.output`,
and attaches `error = data.error || "Job failed"` only when
`status === "FAILED"`. -/

/-- The completion payload the provider places under `output`
(opaque to the backend, inspected by the frontend poller). -/
structure JobOutput where
  status : String
  audio_base64 : Option String
  message : Option String
  inference_time_sec : Option ℚ
deriving DecidableEq, Repr

/-- Parsed provider status JSON. -/
structure ProviderStatus where
  id : String
  status : String
  output : Option JobOutput
  error : Option String
deriving DecidableEq, Repr

/-- A fetch response as the handler inspects it: the `ok` flag, the
parsed JSON body, and the raw text used for logging. -/
structure FetchResp where
  ok : Bool
  body : ProviderStatus
  text : String
deriving DecidableEq, Repr

/-- Outcome of the outbound status fetch: transport error (fetch or
json threw) or a response. -/
inductive FetchOutcome where
  | transportError
  | resp (r : FetchResp)
deriving DecidableEq, Repr

/-- The JSON the status endpoint returns on 200. -/
structure StatusResult where
  jobId : String
  status : String
  output : Option JobOutput
  error : Option String
deriving DecidableEq, Repr

/-- What the status endpoint sends back. -/
inductive StatusResp where
  | ok (body : StatusResult)
  | upstreamError (code : Nat) (msg : String)
  | serverError (code : Nat) (msg : String)
deriving DecidableEq, Repr

/-- The `/api/status/:jobId` handler, `server.js:104-140`. -/
def statusHandler (o : FetchOutcome) : StatusResp :=
  match o with
  | .transportError => .serverError 500 "Internal server error"
  | .resp r =>
    if !r.ok then .upstreamError 502 "Failed to get job status"
    else
      let d := r.body
      let result : StatusResult :=
        { jobId := d.id, status := d.status, output := none, error := none }
      let result :=
        if d.status = "COMPLETED" ∧ d.output.isSome then
          { result with output := d.output }
        else result
      let result :=
        if d.status = "FAILED" then
          { result with error := some (jsOrStr d.error "Job failed") }
        else result
      .ok result

/-! ## Frontend: poller state machine (`pollStatus` / `stopPolling`)

React state relevant to the lifecycle: `status`, `error`, `audioSrc`,
`inferenceTime`, `loading`, and `pollRef` (whether the interval timer is
set).  An extra ghost counter records how many times a result was
materialized (`base64ToBlob` succeeded and an object URL was created);
it instruments the model and changes nothing else. -/

/-- Frontend application state. -/
structure AppState where
  status : Option String
  error : Option String
  audioSrc : Option Blob
  inferenceTime : Option ℚ
  loading : Bool
  timerActive : Bool
  materializations : Nat
deriving DecidableEq, Repr

/-- Initial React state: all `useState` initializers plus a null
`pollRef`. -/
def initState : AppState :=
  { status := none, error := none, audioSrc := none, inferenceTime := none
    loading := false, timerActive := false, materializations := 0 }

/-- `stopPolling`: clears the interval timer when one is set. -/
def stopPolling (s : AppState) : AppState :=
  { s with timerActive := false }

/-- What one status resolution delivers to the interval callback: the
parsed `/api/status` JSON, or a thrown fetch/json error (caught by the
callback's `catch`, which only logs). -/
inductive PollResponse where
  | ok (d : StatusResult)
  | netError
deriving DecidableEq, Repr

/-- The `COMPLETED && data.output` branch of the interval callback:
stop polling, clear loading, then either materialize the audio (when
`output.status === "success" && output.audio_base64`) or set the
output failure message.  When `atob` throws inside `base64ToBlob`, the
exception lands in the callback's `catch`, so none of the remaining
state setters run — the error is logged, not stored. -/
def handleCompletedOutput (s : AppState) (out : JobOutput) : AppState :=
  let s := stopPolling s
  let s := { s with loading := false }
  if out.status = "success" ∧ jsTruthyStr out.audio_base64 then
    match base64ToBlob (out.audio_base64.getD "") "audio/mpeg" with
    | some blob =>
      { s with audioSrc := some blob
               inferenceTime := out.inference_time_sec
               materializations := s.materializations + 1 }
    | none => s
  else
    { s with error := some (jsOrStr out.message "Generation failed") }

/-- One execution of the interval callback (`pollStatus`'s
`setInterval` body) on the response it received. -/
def pollTick (s : AppState) (r : PollResponse) : AppState :=
  match r with
  | .netError => s
  | .ok d =>
    let s := { s with status := some d.status }
    let s :=
      if h : d.status = "COMPLETED" ∧ d.output.isSome then
        handleCompletedOutput s (d.output.get h.2)
      else s
    if d.status = "FAILED" then
      let s := stopPolling s
      let s := { s with loading := false }
      { s with error := some (jsOrStr d.error "Job failed") }
    else s

/-- Run the poller over a list of provider responses: a tick fires (and
consumes the next response) only while the interval timer is set.  The
returned number counts the status resolutions actually issued. -/
def runPoller (s : AppState) : List PollResponse → AppState × Nat
  | [] => (s, 0)
  | r :: rs =>
    if s.timerActive then
      let out := runPoller (pollTick s r) rs
      (out.1, out.2 + 1)
    else (s, 0)

/-- `pollStatus(jobId)` itself only installs the interval timer. -/
def pollStatus (s : AppState) : AppState :=
  { s with timerActive := true }

/-! ## Frontend: `handleGenerate` (new submission) -/

/-- Observable actions of `handleGenerate` before/at the outbound
submission. -/
inductive GenEvent where
  | invalidateResult
  | stopTimer
  | submit
deriving DecidableEq, Repr

/-- The synchronous prefix of `handleGenerate`, up to and including the
`fetch` to `/api/generate`: guard on blank inputs, then
`setLoading(true)`, `setError(null)`, `setAudioSrc(null)`,
`setStatus("SUBMITTING")`, `setInferenceTime(null)`, `stopPolling()`,
and only then the outbound submission.  Returns the state in force when
the submission is issued together with the ordered event trace. -/
def handleGenerateStart (lyrics tags : String) (s : AppState) :
    AppState × List GenEvent :=
  if trimJs lyrics = "" ∨ trimJs tags = "" then (s, [])
  else
    let s := { s with loading := true }
    let s := { s with error := none }
    let s := { s with audioSrc := none }
    let s := { s with status := some "SUBMITTING" }
    let s := { s with inferenceTime := none }
    let s := stopPolling s
    (s, [.invalidateResult, .stopTimer, .submit])

/-! ## Backend: rate limiter mounted on `/api/`

`server.js:39-44`: `rateLimit({windowMs: 60*1000, max: 10, message})`
mounted with `app.use("/api/", limiter)`, so every request whose path
is under `/api/` consumes the same fixed-window quota.  The frontend
polls `/api/status/:jobId` every `POLL_INTERVAL = 3000` ms. -/

def limiterWindowMs : Nat := 60 * 1000

def limiterMax : Nat := 10

def limiterMessage : String := "Too many requests, please try again later."

def pollIntervalMs : Nat := 3000

/-- Express mount-path test for `app.use("/api/", limiter)`. -/
def limiterAppliesTo (p : String) : Bool :=
  "/api/".data.isPrefixOf p.data

/-- One caller's requests inside a single fixed window: each request to
a path under `/api/` increments the shared hit counter and is allowed
only while the counter is within `limiterMax`; other paths bypass the
limiter.  Returns allowed/rejected per request. -/
def windowOutcomes (hits : Nat) : List String → List Bool
  | [] => []
  | p :: ps =>
    if limiterAppliesTo p then
      (hits + 1 ≤ limiterMax) :: windowOutcomes (hits + 1) ps
    else
      true :: windowOutcomes hits ps

/-- Number of poll ticks that fall inside one rate-limit window. -/
def pollTicksPerWindow : Nat := limiterWindowMs / pollIntervalMs

/-! ## Concrete fixtures used by the claims -/

/-- Status response while the job is queued. -/
def respInQueue : PollResponse :=
  .ok { jobId := "job-1", status := "IN_QUEUE", output := none, error := none }

/-- Status response while the job is running. -/
def respInProgress : PollResponse :=
  .ok { jobId := "job-1", status := "IN_PROGRESS", output := none, error := none }

/-- Successful completion payload carrying the base64 audio `"AAAA"`. -/
def successOutput : JobOutput :=
  { status := "success", audio_base64 := some "AAAA", message := none
    inference_time_sec := some 42 }

/-- Status response for a completed job with a successful output. -/
def respCompleted : PollResponse :=
  .ok { jobId := "job-1", status := "COMPLETED", output := some successOutput
        error := none }

/-- Status response claiming `COMPLETED` but carrying no output payload. -/
def respCompletedNoOutput : PollResponse :=
  .ok { jobId := "job-1", status := "COMPLETED", output := none, error := none }

/-- Completion payload whose `audio_base64` is not valid base64. -/
def badB64Output : JobOutput :=
  { status := "success", audio_base64 := some "%%%", message := none
    inference_time_sec := none }

/-- Status response for a completed job with a malformed audio payload. -/
def respCompletedBadB64 : PollResponse :=
  .ok { jobId := "job-1", status := "COMPLETED", output := some badB64Output
        error := none }

/-- The provider response sequence queued → running → completed/success. -/
def successSeq : List PollResponse := [respInQueue, respInProgress, respCompleted]

/-! ## Helper lemmas -/

/-- A poller whose timer is cleared never issues another resolution. -/
theorem runPoller_inactive {s : AppState} (h : s.timerActive = false)
    (rs : List PollResponse) : runPoller s rs = (s, 0) := by
  cases rs with
  | nil => rfl
  | cons r rs => simp [runPoller, h]

/-- A poller with an active timer fires one tick and recurses. -/
theorem runPoller_cons_active {s : AppState} (h : s.timerActive = true)
    (r : PollResponse) (rs : List PollResponse) :
    runPoller s (r :: rs) =
      ((runPoller (pollTick s r) rs).1, (runPoller (pollTick s r) rs).2 + 1) := by
  simp [runPoller, h]

/-- The completed-with-output branch always clears the timer. -/
theorem handleCompletedOutput_timerActive (s : AppState) (out : JobOutput) :
    (handleCompletedOutput s out).timerActive = false := by
  unfold handleCompletedOutput stopPolling
  split
  · split <;> rfl
  · rfl

/-- The generate handler forwards exactly the normalized payload. -/
theorem generateHandler_forwarded_eq {b : GenBody} {p : GenPayload}
    (h : generateHandler b = .forwarded p) :
    p = { lyrics := trimJs (b.lyrics.getD "")
          tags := trimJs (b.tags.getD "")
          duration_ms := min (jsOrInt b.duration_ms.parseIntJs 120000) 240000
          temperature := jsOrRat b.temperature.parseFloatJs 1
          topk := jsOrInt b.topk.parseIntJs 50
          cfg_scale := jsOrRat b.cfg_scale.parseFloatJs (mkRat 3 2) } := by
  unfold generateHandler at h
  split at h
  · exact absurd h (by simp)
  · split at h
    · exact absurd h (by simp)
    · rw [GenResp.forwarded.injEq] at h
      exact h.symm

/-- On a 200 provider response the status endpoint returns the copied
identifier and status, with `output`/`error` attached per the two
guards. -/
theorem statusHandler_resp_ok (r : FetchResp) (h : r.ok = true) :
    statusHandler (.resp r) = .ok
      { jobId := r.body.id
        status := r.body.status
        output := if r.body.status = "COMPLETED" ∧ r.body.output.isSome = true
          then r.body.output else none
        error := if r.body.status = "FAILED"
          then some (jsOrStr r.body.error "Job failed") else none } := by
  by_cases h1 : r.body.status = "COMPLETED" ∧ r.body.output.isSome = true
  all_goals by_cases h2 : r.body.status = "FAILED"
  all_goals simp [statusHandler, h, h1, h2]

/-! ## Claims -/

/-- C1, counterexample: a `COMPLETED` status response that carries no
output payload is a terminal status observation, yet the poller's
interval timer stays active and a further status resolution is issued
(two resolutions fire over the two-response sequence). -/
theorem poller_polls_past_completed_without_output :
    (pollTick (pollStatus initState) respCompletedNoOutput).status =
      some "COMPLETED" ∧
    (pollTick (pollStatus initState) respCompletedNoOutput).timerActive = true ∧
    (runPoller (pollStatus initState)
      [respCompletedNoOutput, respCompletedNoOutput]).2 = 2 := by
  decide

/-- C1 (amended): once the poller observes `FAILED`, or `COMPLETED`
with an output payload attached, it cancels its interval timer and
never issues another status resolution (a `COMPLETED` response without
an output payload does not stop it); and on the provider sequence
`IN_QUEUE → IN_PROGRESS → COMPLETED{output.status=success}` the poller
issues exactly three resolutions and exactly one result
materialization occurs, whatever responses would follow. -/
theorem poller_terminal_stops_and_single_materialization :
    (∀ (s : AppState) (d : StatusResult),
      d.status = "FAILED" ∨ (d.status = "COMPLETED" ∧ d.output.isSome = true) →
      (pollTick s (.ok d)).timerActive = false ∧
      ∀ rs, runPoller (pollTick s (.ok d)) rs = (pollTick s (.ok d), 0)) ∧
    (∀ rs, (runPoller (pollStatus initState) (successSeq ++ rs)).2 = 3 ∧
      (runPoller (pollStatus initState) (successSeq ++ rs)).1.materializations
        = 1) := by
  constructor
  · intro s d h
    have ht : (pollTick s (.ok d)).timerActive = false := by
      rcases h with hf | ⟨hc, ho⟩
      · simp [pollTick, hf, stopPolling]
      · simp [pollTick, hc, ho, handleCompletedOutput_timerActive]
    exact ⟨ht, fun rs => runPoller_inactive ht rs⟩
  · intro rs
    have t0 : (pollStatus initState).timerActive = true := rfl
    have t1 : (pollTick (pollStatus initState) respInQueue).timerActive
        = true := by decide
    have t2 : (pollTick (pollTick (pollStatus initState) respInQueue)
        respInProgress).timerActive = true := by decide
    have t3 : (pollTick (pollTick (pollTick (pollStatus initState) respInQueue)
        respInProgress) respCompleted).timerActive = false := by decide
    have m3 : (pollTick (pollTick (pollTick (pollStatus initState) respInQueue)
        respInProgress) respCompleted).materializations = 1 := by decide
    rw [show successSeq ++ rs
        = respInQueue :: respInProgress :: respCompleted :: rs from rfl,
      runPoller_cons_active t0, runPoller_cons_active t1,
      runPoller_cons_active t2, runPoller_inactive t3]
    exact ⟨rfl, m3⟩

/-- C1 witness: the general stopping fact applied to a concrete
`FAILED` response, and the concrete success sequence. -/
theorem poller_terminal_stops_witness :
    (pollTick (pollStatus initState)
      (.ok { jobId := "job-1", status := "FAILED", output := none
             error := none })).timerActive = false ∧
    (runPoller (pollStatus initState) successSeq).2 = 3 ∧
    (runPoller (pollStatus initState) successSeq).1.materializations = 1 := by
  have h := poller_terminal_stops_and_single_materialization
  refine ⟨(h.1 _ _ (Or.inl rfl)).1, ?_, ?_⟩
  · simpa using (h.2 []).1
  · simpa using (h.2 []).2

/-- C2, counterexample: a completed job whose `audio_base64` is the
malformed string `"%%%"` makes materialization fail, but the resulting
state carries no error message — the failure is only logged by the
interval callback's catch, not surfaced to the caller. -/
theorem malformed_base64_error_not_surfaced :
    atobJs "%%%" = none ∧
    (pollTick (pollStatus initState) respCompletedBadB64).error = none ∧
    (pollTick (pollStatus initState) respCompletedBadB64).audioSrc = none := by
  decide

/-- C2 (amended): materialization decodes base64 to a binary buffer of
exactly the decoded bytes tagged with the declared media type
(`"AAAA"`/`audio/mpeg` gives the 3-byte zero buffer); malformed base64
makes materialization fail with no usable resource handle and does not
crash the poller — the tick completes with the timer cancelled — but
the failure is only logged: the caller-visible error state is left
unchanged rather than receiving a generation error. -/
theorem materializer_decode_and_malformed_behavior :
    (∀ (s m : String) (b : Blob), base64ToBlob s m = some b →
      atobJs s = some b.bytes ∧ b.type = m) ∧
    base64ToBlob "AAAA" "audio/mpeg" = some ⟨[0, 0, 0], "audio/mpeg"⟩ ∧
    (∀ s m, atobJs s = none → base64ToBlob s m = none) ∧
    (∀ (st : AppState) (out : JobOutput) (j : String) (e : Option String),
      out.status = "success" → jsTruthyStr out.audio_base64 = true →
      base64ToBlob (out.audio_base64.getD "") "audio/mpeg" = none →
      pollTick st (.ok ⟨j, "COMPLETED", some out, e⟩) =
        { st with status := some "COMPLETED", loading := false
                  timerActive := false }) := by
  refine ⟨?_, by decide, ?_, ?_⟩
  · intro s m b h
    unfold base64ToBlob at h
    cases hd : atobJs s with
    | none => simp [hd] at h
    | some bs =>
      simp [hd] at h
      exact ⟨by rw [← h], by rw [← h]⟩
  · intro s m h
    simp [base64ToBlob, h]
  · intro st out j e hs ht hb
    simp [pollTick, handleCompletedOutput, stopPolling, hs, ht, hb]

/-- C2 witness: the decode fact at `"AAAA"`, and the malformed-input
fact at the concrete `"%%%"` payload. -/
theorem materializer_decode_witness :
    base64ToBlob "AAAA" "audio/mpeg" = some ⟨[0, 0, 0], "audio/mpeg"⟩ ∧
    atobJs "AAAA" = some [0, 0, 0] ∧
    pollTick (pollStatus initState) respCompletedBadB64 =
      { pollStatus initState with status := some "COMPLETED", loading := false
                                  timerActive := false } := by
  have h := materializer_decode_and_malformed_behavior
  refine ⟨h.2.1, ?_, ?_⟩
  · exact (h.1 "AAAA" "audio/mpeg" _ h.2.1).1
  · exact h.2.2.2 (pollStatus initState) badB64Output "job-1" none rfl
      (by decide) (by decide)

/-- C3, counterexample: a requested `duration_ms` of `-5000` is
forwarded as `-5000`, outside the claimed range `[0, 240000]` — the
code only caps from above. -/
theorem duration_not_clamped_below :
    generateHandler
      { lyrics := some "la", tags := some "pop", duration_ms := .int (-5000)
        temperature := .missing, topk := .missing, cfg_scale := .missing } =
      .forwarded
        { lyrics := "la", tags := "pop", duration_ms := -5000
          temperature := 1, topk := 50, cfg_scale := mkRat 3 2 } ∧
    ¬ (0 : Int) ≤ -5000 := by
  decide

/-- C3 (amended): the forwarded `duration_ms` is an integer capped
from above at `240000` (a request of `999999999` forwards exactly
`240000`), with default `120000` when the field is missing,
non-numeric, or parses to `0`; negative values are forwarded
unchanged, so no lower clamp to `0` is applied. -/
theorem duration_capped_above_with_default (b : GenBody) (p : GenPayload)
    (h : generateHandler b = .forwarded p) :
    p.duration_ms ≤ 240000 ∧
    (b.duration_ms = .missing → p.duration_ms = 120000) ∧
    (b.duration_ms = .nonNumeric → p.duration_ms = 120000) ∧
    (b.duration_ms = .int 0 → p.duration_ms = 120000) ∧
    (b.duration_ms = .int 999999999 → p.duration_ms = 240000) ∧
    (∀ n : Int, b.duration_ms = .int n → n < 0 → p.duration_ms = n) := by
  have hp := generateHandler_forwarded_eq h
  subst hp
  refine ⟨min_le_right _ _, ?_, ?_, ?_, ?_, ?_⟩
  · intro hd; rw [hd]
    show min (jsOrInt (NumField.parseIntJs .missing) 120000) 240000 = 120000
    decide
  · intro hd; rw [hd]
    show min (jsOrInt (NumField.parseIntJs .nonNumeric) 120000) 240000 = 120000
    decide
  · intro hd; rw [hd]
    show min (jsOrInt (NumField.parseIntJs (.int 0)) 120000) 240000 = 120000
    decide
  · intro hd; rw [hd]
    show min (jsOrInt (NumField.parseIntJs (.int 999999999)) 120000) 240000
      = 240000
    decide
  · intro n hd hn
    rw [hd]
    show min (jsOrInt (NumField.parseIntJs (.int n)) 120000) 240000 = n
    have hn0 : n ≠ 0 := by omega
    simp only [NumField.parseIntJs, jsOrInt, if_neg hn0]
    omega

/-- C3 witness: the amended duration facts at a concrete request with
`duration_ms = 999999999`. -/
theorem duration_capped_above_witness :
    generateHandler
      { lyrics := some "la", tags := some "pop"
        duration_ms := .int 999999999, temperature := .missing
        topk := .missing, cfg_scale := .missing } =
      .forwarded
        { lyrics := "la", tags := "pop", duration_ms := 240000
          temperature := 1, topk := 50, cfg_scale := mkRat 3 2 } ∧
    (240000 : Int) = 240000 := by
  have h := duration_capped_above_with_default
    { lyrics := some "la", tags := some "pop", duration_ms := .int 999999999
      temperature := .missing, topk := .missing, cfg_scale := .missing }
    { lyrics := "la", tags := "pop", duration_ms := 240000
      temperature := 1, topk := 50, cfg_scale := mkRat 3 2 } (by decide)
  exact ⟨by decide, h.2.2.2.2.1 rfl⟩

/-- C4 (confirmed): a request whose `lyrics` or `tags` is missing,
empty, or whitespace-only is rejected with a 400 naming the field
(`lyrics` checked first), and the handler issues no outbound provider
call. -/
theorem blank_fields_rejected_without_outbound (b : GenBody) :
    isBlank none = true ∧
    isBlank (some "") = true ∧
    (∀ s : String, trimJs s = "" → isBlank (some s) = true) ∧
    (isBlank b.lyrics = true →
      generateHandler b = .clientError 400 "lyrics is required") ∧
    (isBlank b.lyrics = false → isBlank b.tags = true →
      generateHandler b = .clientError 400 "tags is required") ∧
    (isBlank b.lyrics = true ∨ isBlank b.tags = true →
      (generateHandler b).outboundCalls = 0) := by
  refine ⟨rfl, rfl, ?_, ?_, ?_, ?_⟩
  · intro s hs; simp [isBlank, hs]
  · intro h; simp [generateHandler, h]
  · intro h1 h2; simp [generateHandler, h1, h2]
  · rintro (h | h)
    · simp [generateHandler, h, GenResp.outboundCalls]
    · by_cases h1 : isBlank b.lyrics = true
      · simp [generateHandler, h1, GenResp.outboundCalls]
      · simp [generateHandler, eq_false_of_ne_true h1, h,
          GenResp.outboundCalls]

/-- C4 witness: the rejection facts at a whitespace-only `lyrics`
field. -/
theorem blank_fields_rejected_witness :
    generateHandler
      { lyrics := some "  ", tags := some "pop", duration_ms := .missing
        temperature := .missing, topk := .missing, cfg_scale := .missing } =
      .clientError 400 "lyrics is required" ∧
    (generateHandler
      { lyrics := some "  ", tags := some "pop", duration_ms := .missing
        temperature := .missing, topk := .missing
        cfg_scale := .missing }).outboundCalls = 0 := by
  have h := blank_fields_rejected_without_outbound
    { lyrics := some "  ", tags := some "pop", duration_ms := .missing
      temperature := .missing, topk := .missing, cfg_scale := .missing }
  exact ⟨h.2.2.2.1 (by decide), h.2.2.2.2.2 (Or.inl (by decide))⟩

/-- C5, counterexample: `temperature` and `topk` supplied as the
numeric value `0` are not forwarded as given — the JS `|| default`
falls back to `1.0` and `50`. -/
theorem numeric_zero_falls_back :
    generateHandler
      { lyrics := some "la", tags := some "pop", duration_ms := .missing
        temperature := .int 0, topk := .int 0, cfg_scale := .missing } =
      .forwarded
        { lyrics := "la", tags := "pop", duration_ms := 120000
          temperature := 1, topk := 50, cfg_scale := mkRat 3 2 } ∧
    (0 : ℚ) ≠ 1 ∧ (0 : Int) ≠ 50 := by
  decide

/-- C5 (amended): `temperature`, `topk` and `cfg_scale` are forwarded
as given when the supplied value is numeric and nonzero, and fall back
to their defaults (`1.0`, `50`, `1.5`) when the field is missing,
non-numeric, or parses to `0`. -/
theorem numeric_fields_forwarded_or_default (b : GenBody) (p : GenPayload)
    (h : generateHandler b = .forwarded p) :
    (∀ q : ℚ, b.temperature.parseFloatJs = some q → q ≠ 0 →
      p.temperature = q) ∧
    (b.temperature.parseFloatJs = none ∨ b.temperature.parseFloatJs = some 0 →
      p.temperature = 1) ∧
    (∀ n : Int, b.topk.parseIntJs = some n → n ≠ 0 → p.topk = n) ∧
    (b.topk.parseIntJs = none ∨ b.topk.parseIntJs = some 0 → p.topk = 50) ∧
    (∀ q : ℚ, b.cfg_scale.parseFloatJs = some q → q ≠ 0 →
      p.cfg_scale = q) ∧
    (b.cfg_scale.parseFloatJs = none ∨ b.cfg_scale.parseFloatJs = some 0 →
      p.cfg_scale = mkRat 3 2) := by
  have hp := generateHandler_forwarded_eq h
  subst hp
  refine ⟨?_, ?_, ?_, ?_, ?_, ?_⟩
  · intro q hq hq0; simp [jsOrRat, hq, hq0]
  · rintro (hq | hq) <;> simp [jsOrRat, hq]
  · intro n hn hn0; simp [jsOrInt, hn, hn0]
  · rintro (hn | hn) <;> simp [jsOrInt, hn]
  · intro q hq hq0; simp [jsOrRat, hq, hq0]
  · rintro (hq | hq) <;> simp [jsOrRat, hq]

/-- C5 witness: the forwarding facts at a request supplying
`temperature = 2/5`, `topk = 7` and missing `cfg_scale`. -/
theorem numeric_fields_forwarded_witness :
    generateHandler
      { lyrics := some "la", tags := some "pop", duration_ms := .missing
        temperature := .rat (mkRat 2 5), topk := .int 7, cfg_scale := .missing } =
      .forwarded
        { lyrics := "la", tags := "pop", duration_ms := 120000
          temperature := mkRat 2 5, topk := 7, cfg_scale := mkRat 3 2 } ∧
    (mkRat 2 5 : ℚ) = mkRat 2 5 ∧ (7 : Int) = 7 ∧ mkRat 3 2 = mkRat 3 2 := by
  have h := numeric_fields_forwarded_or_default
    { lyrics := some "la", tags := some "pop", duration_ms := .missing
      temperature := .rat (mkRat 2 5), topk := .int 7, cfg_scale := .missing }
    { lyrics := "la", tags := "pop", duration_ms := 120000
      temperature := mkRat 2 5, topk := 7, cfg_scale := mkRat 3 2 } (by decide)
  exact ⟨by decide, (h.1 (mkRat 2 5) rfl (by decide)).symm,
    (h.2.2.1 7 rfl (by decide)).symm, (h.2.2.2.2.2 (Or.inl rfl)).symm⟩

/-- C6, counterexample: a `FAILED` provider response that supplies the
empty string as its error message is not relayed verbatim — the falsy
check replaces it with the fallback `"Job failed"`, although the
message was supplied, not absent. -/
theorem empty_error_message_replaced :
    statusHandler (.resp
      { ok := true
        body := { id := "job-1", status := "FAILED", output := none
                  error := some "" }
        text := "" }) =
      .ok { jobId := "job-1", status := "FAILED", output := none
            error := some "Job failed" } ∧
    some "Job failed" ≠ some "" := by
  decide

/-- C6 (amended): on a successful provider status response, the status
endpoint's result carries `output` only when the status is
`COMPLETED` (and then it is the provider's output), and carries
`error` only when the status is `FAILED`; the error is the
provider-supplied message when that message is non-empty, and the
fallback `"Job failed"` when it is absent or empty. -/
theorem status_output_error_fields (r : FetchResp) (res : StatusResult)
    (hok : r.ok = true) (h : statusHandler (.resp r) = .ok res) :
    (res.output.isSome = true →
      r.body.status = "COMPLETED" ∧ res.output = r.body.output) ∧
    (res.error.isSome = true → r.body.status = "FAILED") ∧
    (r.body.status = "FAILED" → r.body.error = none →
      res.error = some "Job failed") ∧
    (r.body.status = "FAILED" → r.body.error = some "" →
      res.error = some "Job failed") ∧
    (∀ m : String, r.body.status = "FAILED" → r.body.error = some m →
      m ≠ "" → res.error = some m) := by
  rw [statusHandler_resp_ok r hok, StatusResp.ok.injEq] at h
  subst h
  dsimp only
  refine ⟨?_, ?_, ?_, ?_, ?_⟩
  · intro ho
    by_cases h1 : r.body.status = "COMPLETED" ∧ r.body.output.isSome = true
    · rw [if_pos h1]; exact ⟨h1.1, rfl⟩
    · rw [if_neg h1] at ho; simp at ho
  · intro he
    by_cases h2 : r.body.status = "FAILED"
    · exact h2
    · rw [if_neg h2] at he; simp at he
  · intro h2 hn; rw [if_pos h2]; simp [jsOrStr, hn]
  · intro h2 hn; rw [if_pos h2]; simp [jsOrStr, hn]
  · intro m h2 hm hmne; rw [if_pos h2]; simp [jsOrStr, hm, hmne]

/-- C6 witness: the field facts at a concrete `FAILED` response with
the non-empty message `"boom"`. -/
theorem status_output_error_fields_witness :
    statusHandler (.resp
      { ok := true
        body := { id := "job-1", status := "FAILED", output := none
                  error := some "boom" }
        text := "" }) =
      .ok { jobId := "job-1", status := "FAILED", output := none
            error := some "boom" } ∧
    (StatusResult.mk "job-1" "FAILED" none (some "boom")).error
      = some "boom" := by
  have h := status_output_error_fields
    { ok := true
      body := { id := "job-1", status := "FAILED", output := none
                error := some "boom" }
      text := "" }
    { jobId := "job-1", status := "FAILED", output := none
      error := some "boom" }
    rfl (by decide)
  exact ⟨by decide, h.2.2.2.2 "boom" rfl rfl (by decide)⟩

/-- C7 (confirmed): a transport error yields the 500 resolver-level
failure and a non-success provider HTTP outcome yields the 502
upstream failure; neither outcome ever produces a job-status result,
so in particular neither is ever mapped to a `FAILED` job status. -/
theorem resolver_failure_distinct_from_failed :
    statusHandler .transportError = .serverError 500 "Internal server error" ∧
    (∀ res : StatusResult, statusHandler .transportError ≠ .ok res) ∧
    (∀ r : FetchResp, r.ok = false →
      statusHandler (.resp r) = .upstreamError 502 "Failed to get job status" ∧
      ∀ res : StatusResult, statusHandler (.resp r) ≠ .ok res) := by
  refine ⟨rfl, ?_, ?_⟩
  · intro res h
    simp [statusHandler] at h
  · intro r hr
    have he : statusHandler (.resp r)
        = .upstreamError 502 "Failed to get job status" := by
      simp [statusHandler, hr]
    refine ⟨he, fun res h => ?_⟩
    rw [he] at h
    exact StatusResp.noConfusion h

/-- C7 witness: the upstream-failure facts at a concrete non-ok fetch
response. -/
theorem resolver_failure_witness :
    statusHandler (.resp
      { ok := false
        body := { id := "job-1", status := "IN_QUEUE", output := none
                  error := none }
        text := "boom" }) =
      .upstreamError 502 "Failed to get job status" ∧
    statusHandler .transportError
      = .serverError 500 "Internal server error" := by
  have h := resolver_failure_distinct_from_failed
  exact ⟨(h.2.2
    { ok := false
      body := { id := "job-1", status := "IN_QUEUE", output := none
                error := none }
      text := "boom" } rfl).1, h.1⟩

/-- C8 (confirmed): on a `COMPLETED` status resolution whose
`output.status` is not `"success"`, the poller clears its timer,
stores `output.message` (with the `"Generation failed"` fallback when
the message is absent, and the message itself when non-empty) as the
user-visible error, leaves `audioSrc` and the materialization count
untouched (no success result is produced), and never issues another
status resolution. -/
theorem completed_unsuccessful_surfaced (s : AppState) (out : JobOutput)
    (j : String) (e : Option String) (hns : out.status ≠ "success") :
    pollTick s (.ok ⟨j, "COMPLETED", some out, e⟩) =
      { s with status := some "COMPLETED", loading := false
               timerActive := false
               error := some (jsOrStr out.message "Generation failed") } ∧
    (out.message = none →
      jsOrStr out.message "Generation failed" = "Generation failed") ∧
    (∀ m : String, out.message = some m → m ≠ "" →
      jsOrStr out.message "Generation failed" = m) ∧
    (∀ rs, runPoller (pollTick s (.ok ⟨j, "COMPLETED", some out, e⟩)) rs =
      (pollTick s (.ok ⟨j, "COMPLETED", some out, e⟩), 0)) := by
  have hmain : pollTick s (.ok ⟨j, "COMPLETED", some out, e⟩) =
      { s with status := some "COMPLETED", loading := false
               timerActive := false
               error := some (jsOrStr out.message "Generation failed") } := by
    simp [pollTick, handleCompletedOutput, stopPolling, hns]
  refine ⟨hmain, ?_, ?_, fun rs => runPoller_inactive ?_ rs⟩
  · intro hm; simp [jsOrStr, hm]
  · intro m hm hmne; simp [jsOrStr, hm, hmne]
  · rw [hmain]

/-- C8 witness: the surfaced failure at a concrete completed-but-failed
output carrying the message `"cuda OOM"`. -/
theorem completed_unsuccessful_witness :
    pollTick (pollStatus initState)
      (.ok ⟨"job-1", "COMPLETED",
        some ⟨"error", none, some "cuda OOM", none⟩, none⟩) =
      { pollStatus initState with
          status := some "COMPLETED", loading := false, timerActive := false
          error := some "cuda OOM" } := by
  have h := completed_unsuccessful_surfaced (pollStatus initState)
    ⟨"error", none, some "cuda OOM", none⟩ "job-1" none (by decide)
  rw [h.1, h.2.2.1 "cuda OOM" rfl (by decide)]

/-- C9 (confirmed): when a new generation actually submits (non-blank
inputs), the result handle is invalidated and the running poller's
timer cancelled strictly before the submission event, and the state in
force at submission carries no result handle and no active timer. -/
theorem new_submission_clears_previous (lyrics tags : String) (s : AppState)
    (h : (handleGenerateStart lyrics tags s).2 ≠ []) :
    (handleGenerateStart lyrics tags s).2 =
      [.invalidateResult, .stopTimer, .submit] ∧
    (handleGenerateStart lyrics tags s).1 =
      { s with loading := true, error := none, audioSrc := none
               status := some "SUBMITTING", inferenceTime := none
               timerActive := false } := by
  by_cases hg : trimJs lyrics = "" ∨ trimJs tags = ""
  · exact absurd (by simp [handleGenerateStart, hg]) h
  · constructor <;> simp [handleGenerateStart, hg, stopPolling]

/-- C9 witness: a previous session holding a materialized blob and a
live timer is fully cleared before the new submission. -/
theorem new_submission_clears_previous_witness :
    (handleGenerateStart "la" "pop"
      { status := some "COMPLETED", error := none
        audioSrc := some ⟨[0, 0, 0], "audio/mpeg"⟩, inferenceTime := some 42
        loading := false, timerActive := true, materializations := 1 }).1.audioSrc
      = none ∧
    (handleGenerateStart "la" "pop"
      { status := some "COMPLETED", error := none
        audioSrc := some ⟨[0, 0, 0], "audio/mpeg"⟩, inferenceTime := some 42
        loading := false, timerActive := true, materializations := 1 }).1.timerActive
      = false ∧
    (handleGenerateStart "la" "pop"
      { status := some "COMPLETED", error := none
        audioSrc := some ⟨[0, 0, 0], "audio/mpeg"⟩, inferenceTime := some 42
        loading := false, timerActive := true, materializations := 1 }).2
      = [.invalidateResult, .stopTimer, .submit] := by
  have h := new_submission_clears_previous "la" "pop"
    { status := some "COMPLETED", error := none
      audioSrc := some ⟨[0, 0, 0], "audio/mpeg"⟩, inferenceTime := some 42
      loading := false, timerActive := true, materializations := 1 }
    (by decide)
  exact ⟨by rw [h.2], by rw [h.2], h.1⟩

/-- C10 (confirmed): the rate limiter is mounted on the whole `/api/`
surface — submission, status, cancel and health paths all match — with
a quota of 10 per fixed 60-second window shared across them; the
3-second poll cadence yields 20 status requests per window, so a
client polling status alone has its 11th through 20th requests of the
window rejected, and mixed health/status/cancel traffic shares the
single quota. -/
theorem rate_limiter_covers_all_api_paths :
    limiterAppliesTo "/api/generate" = true ∧
    limiterAppliesTo "/api/status/job-1" = true ∧
    limiterAppliesTo "/api/cancel/job-1" = true ∧
    limiterAppliesTo "/api/health" = true ∧
    limiterMax = 10 ∧
    pollTicksPerWindow = 20 ∧
    limiterMax < pollTicksPerWindow ∧
    windowOutcomes 0 (List.replicate 20 "/api/status/job-1") =
      List.replicate 10 true ++ List.replicate 10 false ∧
    windowOutcomes 0
      (List.replicate 5 "/api/health" ++ List.replicate 5 "/api/status/job-1"
        ++ ["/api/cancel/job-1"]) =
      List.replicate 10 true ++ [false] := by
  decide

end ZenGo
